import Mathlib

/-
Verification development for the shengtu image-pipeline repository.

The repository is a browser front end plus Cloudflare edge workers that relay
image-generation requests to two providers (a synchronous Gemini-style provider
and an asynchronous ModelScope-style provider), upload results to object
storage, and split images into 3x3 grids client-side.

Shallow embedding conventions:
- JavaScript strings are modelled as lists of UTF-16 code units (List Nat);
  the JS length property is List.length, slice is List.take / dropLast.
- TextEncoder (WHATWG UTF-8 encoding) length is modelled by utf8Len, in which
  an unpaired surrogate encodes as the 3-byte replacement character.
- Optional / possibly-absent JS values are Option; the JS falsiness of an
  optional string (null, undefined, empty string) is strFalsy.
- Fetch calls to external services are oracle parameters of the handlers.
- The while(true) polling loop of the ModelScope worker is embedded as a
  fuel-indexed structural recursion (pollLoop); theorems show the fuel bound
  is never reached under the wall-clock model, so the embedding is faithful.
- HTTP responses are RelayResponse records; the differently shaped response
  bodies of the source (binary bytes, JSON success envelope, JSON error
  envelope) are the constructors of RelayBody.
-/

namespace Shengtu

/-! ### JavaScript value helpers -/

/-- JS falsiness of an optional string: null, undefined and the empty string
are falsy. -/
def strFalsy : Option String → Bool
  | none => true
  | some s => s = ""

/-- JS logical-or on optional strings, as used for credential fallback:
returns the first operand unless it is falsy. -/
def jsOr (a b : Option String) : Option String :=
  if strFalsy a then b else a

/-- A JS string as a list of UTF-16 code units. -/
abbrev JsStr := List Nat

/-- JS falsiness of an optional string field holding a JsStr. -/
def jsStrFalsy : Option JsStr → Bool
  | none => true
  | some s => s.isEmpty

/-! ### UTF-8 byte length of a UTF-16 string (TextEncoder semantics)

From src/functions/api/generate-modelscope.ts, truncateByBytes measures
strings with TextEncoder().encode(str).length.  Per the WHATWG encoding
standard, a well formed surrogate pair encodes to 4 bytes and an unpaired
surrogate encodes to the 3-byte replacement character U+FFFD. -/

/-- UTF-8 byte count of a UTF-16 code-unit sequence under WHATWG TextEncoder
semantics. -/
def utf8Len : JsStr → Nat
  | [] => 0
  | [c] => if c < 0x80 then 1 else if c < 0x800 then 2 else 3
  | c :: c2 :: rest =>
    if c < 0x80 then 1 + utf8Len (c2 :: rest)
    else if c < 0x800 then 2 + utf8Len (c2 :: rest)
    else if (0xD800 ≤ c ∧ c ≤ 0xDBFF) ∧ (0xDC00 ≤ c2 ∧ c2 ≤ 0xDFFF) then
      4 + utf8Len rest
    else 3 + utf8Len (c2 :: rest)

/-- Whether a UTF-16 code-unit sequence is well formed (no unpaired
surrogates); a JS string failing this cannot be serialised as valid UTF-8
without replacement. -/
def wellFormedUtf16 : JsStr → Bool
  | [] => true
  | c :: rest =>
    if 0xD800 ≤ c ∧ c ≤ 0xDBFF then
      match rest with
      | c2 :: rest2 => decide (0xDC00 ≤ c2 ∧ c2 ≤ 0xDFFF) && wellFormedUtf16 rest2
      | [] => false
    else if 0xDC00 ≤ c ∧ c ≤ 0xDFFF then false
    else wellFormedUtf16 rest

/-! ### truncateByBytes (src/functions/api/generate-modelscope.ts lines 21-34)

    function truncateByBytes(str, maxBytes) {
        if (encoder.encode(str).length <= maxBytes) return str;
        let result = str.slice(0, maxBytes);
        while (encoder.encode(result).length > maxBytes) {
            result = result.slice(0, -1);
        }
        return result;
    }

The while loop removes one UTF-16 code unit at a time from the end; it is
embedded as a recursion terminating on the length of the list. -/

/-- The shrinking while loop of truncateByBytes: drop the last code unit
until the encoded length fits.  The source loop runs at most length-many
iterations because each iteration shortens the string by one unit and the
empty string encodes to 0 bytes; the fuel argument makes that exact bound
structural. -/
def truncShrinkFuel (maxBytes : Nat) : Nat → JsStr → JsStr
  | 0, s => s
  | f + 1, s =>
    if utf8Len s ≤ maxBytes then s
    else truncShrinkFuel maxBytes f s.dropLast

/-- truncateByBytes from the ModelScope worker: slice to maxBytes UTF-16
units, then drop trailing units until the UTF-8 encoding fits. -/
def truncateByBytes (s : JsStr) (maxBytes : Nat) : JsStr :=
  if utf8Len s ≤ maxBytes then s
  else truncShrinkFuel maxBytes (s.take maxBytes).length (s.take maxBytes)

/-! ### Dimension Resolver

Two variants exist in the source.  The worker variant
(src/functions/api/generate-image.ts lines 12-51) supports ten aspect ratios
and throws on an unknown ratio or quality.  The client utility variant
(src/utils.ts lines 4-26) supports five aspect ratios and silently falls back
to the 1:1 row and the 1K column when a key is absent. -/

/-- JS object-key lookup over an association list. -/
def lookupRow {α : Type} (t : List (String × α)) (k : String) : Option α :=
  (t.find? (fun p => decide (p.1 = k))).map (fun p => p.2)

/-- Combined two-level lookup: the (ratio, quality) pairs present in a
dimension table. -/
def lookupDims (t : List (String × List (String × (Nat × Nat))))
    (r q : String) : Option (Nat × Nat) :=
  (lookupRow t r).bind (fun row => lookupRow row q)

/-- The dimension table of the worker relay
(src/functions/api/generate-image.ts). -/
def dimTableWorker : List (String × List (String × (Nat × Nat))) :=
  [ (("1:1"), [(("1K"), (1024, 1024)), (("2K"), (2048, 2048)), (("4K"), (4096, 4096))]),
    (("2:3"), [(("1K"), (680, 1024)), (("2K"), (1368, 2048)), (("4K"), (2728, 4096))]),
    (("3:2"), [(("1K"), (1024, 680)), (("2K"), (2048, 1368)), (("4K"), (4096, 2728))]),
    (("3:4"), [(("1K"), (768, 1024)), (("2K"), (1536, 2048)), (("4K"), (3072, 4096))]),
    (("4:3"), [(("1K"), (1024, 768)), (("2K"), (2048, 1536)), (("4K"), (4096, 3072))]),
    (("4:5"), [(("1K"), (816, 1024)), (("2K"), (1640, 2048)), (("4K"), (3280, 4096))]),
    (("5:4"), [(("1K"), (1024, 816)), (("2K"), (2048, 1640)), (("4K"), (4096, 3280))]),
    (("9:16"), [(("1K"), (576, 1024)), (("2K"), (1152, 2048)), (("4K"), (2304, 4096))]),
    (("16:9"), [(("1K"), (1024, 576)), (("2K"), (2048, 1152)), (("4K"), (4096, 2304))]),
    (("21:9"), [(("1K"), (1024, 440)), (("2K"), (2048, 880)), (("4K"), (4096, 1752))]) ]

/-- getDimensions of the worker relay: throws (models as Except.error) when
the ratio or the quality is absent from the table. -/
def getDimensionsWorkerE (r q : String) : Except String (Nat × Nat) :=
  match lookupRow dimTableWorker r with
  | none => Except.error ("Invalid Aspect Ratio")
  | some row =>
    match lookupRow row q with
    | none => Except.error ("Invalid Quality")
    | some d => Except.ok d

/-- The dimension table of the client utility (src/utils.ts), five ratios. -/
def dimTableUtils : List (String × List (String × (Nat × Nat))) :=
  [ (("1:1"), [(("1K"), (1024, 1024)), (("2K"), (2048, 2048)), (("4K"), (4096, 4096))]),
    (("3:4"), [(("1K"), (768, 1024)), (("2K"), (1536, 2048)), (("4K"), (3072, 4096))]),
    (("4:3"), [(("1K"), (1024, 768)), (("2K"), (2048, 1536)), (("4K"), (4096, 3072))]),
    (("9:16"), [(("1K"), (576, 1024)), (("2K"), (1152, 2048)), (("4K"), (2304, 4096))]),
    (("16:9"), [(("1K"), (1024, 576)), (("2K"), (2048, 1152)), (("4K"), (4096, 2304))]) ]

/-- getDimensions of the client utility: total, with a silent two-level
fallback (unknown ratio uses the 1:1 row, unknown quality uses the 1K
column of the selected row).  The (0, 0) defaults are unreachable because
every row of the concrete table contains the 1K column. -/
def getDimensionsUtils (r q : String) : Nat × Nat :=
  let ratioData := (lookupRow dimTableUtils r).getD
    ((lookupRow dimTableUtils ("1:1")).getD [])
  (lookupRow ratioData q).getD ((lookupRow ratioData ("1K")).getD (0, 0))

/-! ### HTTP response model shared by the relays -/

/-- The three body shapes produced by the relays: a JSON error envelope
(the code field is absent in the ModelScope relay), the JSON success envelope
of the Gemini worker relay, and a raw binary body. -/
inductive RelayBody where
  | jsonError (code : Option String) (message : String) (details : Option String)
  | jsonSuccessEnvelope (contentType : String) (base64 : String) (width height : Nat)
  | binary (bytes : List Nat)
  deriving DecidableEq

/-- An HTTP response as produced by the workers. -/
structure RelayResponse where
  status : Nat
  headers : List (String × String)
  body : RelayBody
  deriving DecidableEq

def isJsonErrorBody : RelayBody → Bool
  | RelayBody.jsonError _ _ _ => true
  | _ => false

def isBinaryBody : RelayBody → Bool
  | RelayBody.binary _ => true
  | _ => false

def isJsonSuccessEnvelope : RelayBody → Bool
  | RelayBody.jsonSuccessEnvelope _ _ _ _ => true
  | _ => false

/-- Lookup of a response header value by name. -/
def headerVal (hs : List (String × String)) (k : String) : Option String :=
  (hs.find? (fun p => decide (p.1 = k))).map (fun p => p.2)

/-! ### Synchronous provider response parts (Gemini content parts) -/

/-- An inline-image fragment of a provider response part. -/
structure InlinePart where
  mimeType : String
  data : String
  deriving DecidableEq

/-- A heterogeneous response part: text and/or inline image data. -/
structure GPart where
  text : Option String
  inlineData : Option InlinePart
  deriving DecidableEq

/-- Image extraction of the worker relay (generate-image.ts lines 165-169):
looks only at candidates[0].content.parts[0]; returns the data when that
first part carries nonempty inline data. -/
def extractWorker (parts : List GPart) : Option String :=
  match parts.head? with
  | none => none
  | some p =>
    match p.inlineData with
    | none => none
    | some d => if d.data = "" then none else some d.data

/-- Image extraction of generateImageDirectly (generate-image.ts lines
329-335): scans the parts for the first one whose inlineData field is set
(JS truthiness of the object), then requires its data to be nonempty. -/
def extractDirect (parts : List GPart) : Option String :=
  match parts.find? (fun p => p.inlineData.isSome) with
  | none => none
  | some p =>
    match p.inlineData with
    | none => none
    | some d => if d.data = "" then none else some d.data

/-! ### Gemini worker relay (src/functions/api/generate-image.ts onRequestPost)

The upstream fetch to the provider is an oracle parameter.  The handler is
the post-CORS-preflight request path.  The source reads the credential from
env.GEMINI_API_KEY only; the x-goog-api-key request header is never read by
this variant (it only appears in the CORS allow list). -/

/-- The parsed JSON body of a generation request plus the credential header.
The headerApiKey field models the x-goog-api-key request header. -/
structure GenReq where
  headerApiKey : Option String
  prompt : Option JsStr
  negativePrompt : Option JsStr
  ratio : String
  quality : String
  deriving DecidableEq

/-- Outcome of the upstream provider fetch: a non-ok HTTP response with its
status and raw text, or an ok response carrying the candidate parts list. -/
inductive GemUpstream where
  | httpError (status : Nat) (text : String)
  | ok (parts : List GPart)
  deriving DecidableEq

/-- The prompt validation of the worker relay:
missing, non-string, empty, or longer than 2000 UTF-16 units is invalid. -/
def promptInvalid : Option JsStr → Bool
  | none => true
  | some s => s.isEmpty || decide (s.length > 2000)

/-- The aspect ratios accepted by the worker relay validation. -/
def validRatios : List String :=
  [("1:1"), ("2:3"), ("3:2"), ("3:4"), ("4:3"), ("4:5"), ("5:4"),
   ("9:16"), ("16:9"), ("21:9")]

/-- The quality tiers accepted by the worker relay validation. -/
def validQualities : List String := [("1K"), ("2K"), ("4K")]

/-- CORS headers of the Gemini worker relay. -/
def corsG : List (String × String) :=
  [(("Access-Control-Allow-Origin"), ("*")),
   (("Access-Control-Allow-Methods"), ("POST, OPTIONS")),
   (("Access-Control-Allow-Headers"), ("Content-Type, x-goog-api-key"))]

/-- A JSON error response of the Gemini worker relay. -/
def errG (status : Nat) (code : String) (message : String)
    (details : Option String) : RelayResponse :=
  { status := status, headers := corsG,
    body := RelayBody.jsonError (some code) message details }

/-- The success response of the Gemini worker relay: an HTTP 200 whose body
is the JSON envelope holding the base64 image string and the resolved
dimensions, served with the application/json content type and no dimension
headers. -/
def gemSuccess (d : String) (w h : Nat) : RelayResponse :=
  { status := 200,
    headers := corsG ++ [(("Content-Type"), ("application/json"))],
    body := RelayBody.jsonSuccessEnvelope ("image/png") d w h }

/-- Well-formedness of the upstream oracle: a JS fetch Response has ok false
exactly when its status lies outside 200..299, so an httpError branch can
only carry such a status. -/
def upstreamStatusOk : GemUpstream → Bool
  | GemUpstream.httpError s _ => decide (s < 200) || decide (300 ≤ s)
  | GemUpstream.ok _ => true

/-- Whether an Except value is a success. -/
def exceptIsOk : Except String (Nat × Nat) → Bool
  | Except.ok _ => true
  | Except.error _ => false

/-- The Gemini worker relay request handler.  Mirrors the source order:
server credential check (thrown, so caught as a 500), prompt validation
(400), ratio and quality membership (400), dimension resolution, upstream
call, upstream error mapping (echoing the provider status), first-part
image extraction (500 on failure), JSON success envelope. -/
def geminiWorkerHandler (req : GenReq) (envKey : Option String)
    (upstream : GemUpstream) : RelayResponse :=
  if strFalsy envKey then
    errG 500 ("INTERNAL_ERROR") ("服务器配置错误：缺少 API Key。") none
  else if promptInvalid req.prompt then
    errG 400 ("INVALID_INPUT") ("提示词必填且不能超过 2000 字符。") none
  else if ¬ validRatios.contains req.ratio then
    errG 400 ("INVALID_INPUT") ("无效的宽高比。") none
  else if ¬ validQualities.contains req.quality then
    errG 400 ("INVALID_INPUT") ("无效的清晰度设置。") none
  else
    match getDimensionsWorkerE req.ratio req.quality with
    | Except.error e => errG 500 ("INTERNAL_ERROR") e none
    | Except.ok wh =>
      match upstream with
      | GemUpstream.httpError s txt =>
        let code := if s = 429 then ("RATE_LIMITED")
          else if s = 400 then ("INVALID_INPUT") else ("UPSTREAM_ERROR")
        let message := if s = 429 then ("达到全局生成限制。请一分钟后再试。")
          else if s = 400 then ("模型拒绝了该提示词（安全或格式问题）。")
          else ("通过 Gemini API 生成图片失败。")
        errG s code message (some (txt.take 100))
      | GemUpstream.ok parts =>
        match extractWorker parts with
        | none => errG 500 ("INTERNAL_ERROR") ("API 返回了意外的格式（无图像数据）。") none
        | some d => gemSuccess d wh.1 wh.2

/-! ### Credential resolution of the R2-enabled Gemini relay
(src/unnamed/part_000 lines 67-71): header key first, server env key as
fallback, failure only when both are falsy. -/

/-- Credential resolution of the part_000 relay. -/
def part000Cred (headerKey envKey : Option String) : Except String String :=
  if strFalsy (jsOr headerKey envKey) then
    Except.error ("缺少 API Key。请在设置中输入 Key 或配置服务器环境变量。")
  else Except.ok ((jsOr headerKey envKey).getD (""))

/-! ### ModelScope relay (src/functions/api/generate-modelscope.ts)

The submit, poll and download fetches are oracle parameters.  The poll loop
is a while(true) with a 1-second sleep between polls and a 45-second
wall-clock guard; it is embedded fuel-indexed, and the theorems show that
under the wall-clock model the fuel bound is unreachable, so the fuel
constructor is a pure modelling artifact. -/

/-- The parsed JSON body of a ModelScope generation request. -/
structure MsBody where
  prompt : Option JsStr
  negative : Option JsStr
  width : Option Nat
  height : Option Nat
  deriving DecidableEq

/-- The submission payload sent to the provider (prompt at root, resolved
dimensions in parameters), after byte-budget truncation. -/
structure MsPayload where
  model : String
  prompt : JsStr
  negative : Option JsStr
  width : Option Nat
  height : Option Nat
  deriving DecidableEq

/-- Payload construction (generate-modelscope.ts lines 58-83): the prompt is
truncated to 1200 bytes, the negative prompt (when truthy) independently to
600 bytes, and a falsy negative prompt is omitted from the payload. -/
def msPayload (b : MsBody) : MsPayload :=
  { model := ("Tongyi-MAI/Z-Image-Turbo")
  , prompt := truncateByBytes (b.prompt.getD []) 1200
  , negative :=
      match b.negative with
      | none => none
      | some n =>
        if n.isEmpty then none
        else
          let t := truncateByBytes n 600
          if t.isEmpty then none else some t
  , width := b.width
  , height := b.height }

/-- Outcome of one poll fetch of the task-status endpoint. -/
inductive PollFetch where
  | httpError
  | ok (taskStatus : String) (outputImages : List String) (raw : String)
  deriving DecidableEq

/-- Exit reasons of the poll loop.  outOfFuel is the modelling artifact for
the fuel bound, shown unreachable under the wall-clock hypotheses. -/
inductive LoopResult where
  | outOfFuel
  | timedOut
  | pollError
  | genFailed (raw : String)
  | noUrl
  | success (url : String)
  deriving DecidableEq

/-- The wall-clock budget of the poll loop, in milliseconds. -/
def msTimeoutMs : Nat := 45000

/-- The poll loop (generate-modelscope.ts lines 106-135).  t0 is the
startTime reading, time i the Date.now() reading at the top of iteration i,
resp i the outcome of the poll fetch of iteration i.  The second component
of the result counts the polls issued.  A SUCCEED status with no nonempty
first output URL exits as noUrl (the post-loop missing-URL check). -/
def pollLoop (t0 : Nat) (time : Nat → Nat) (resp : Nat → PollFetch) :
    Nat → Nat → LoopResult × Nat
  | 0, i => (LoopResult.outOfFuel, i)
  | fuel + 1, i =>
    if time i - t0 > msTimeoutMs then (LoopResult.timedOut, i)
    else
      match resp i with
      | PollFetch.httpError => (LoopResult.pollError, i + 1)
      | PollFetch.ok st outs raw =>
        if st = ("SUCCEED") then
          match outs.head? with
          | some u => if u = "" then (LoopResult.noUrl, i + 1)
                      else (LoopResult.success u, i + 1)
          | none => (LoopResult.noUrl, i + 1)
        else if st = ("FAILED") then (LoopResult.genFailed raw, i + 1)
        else pollLoop t0 time resp fuel (i + 1)

/-- A poll response that is neither terminal (SUCCEED or FAILED) nor an
HTTP error: the loop keeps polling on it. -/
def nonTerminalB : PollFetch → Bool
  | PollFetch.httpError => false
  | PollFetch.ok st _ _ =>
      !(decide (st = ("SUCCEED"))) && !(decide (st = ("FAILED")))

/-- Outcome of the submission fetch. -/
inductive SubmitResult where
  | httpError (status : Nat) (text : String)
  | ok (taskId : Option String)
  deriving DecidableEq

/-- Outcome of the result-image download fetch. -/
inductive DownloadResult where
  | httpError
  | ok (bytes : List Nat)
  deriving DecidableEq

/-- CORS headers of the ModelScope relay. -/
def corsMs : List (String × String) :=
  [(("Access-Control-Allow-Origin"), ("*")),
   (("Access-Control-Allow-Methods"), ("POST, OPTIONS")),
   (("Access-Control-Allow-Headers"), ("Content-Type, x-modelscope-key")),
   (("Access-Control-Expose-Headers"), ("X-Image-Width, X-Image-Height"))]

/-- Every failure of the ModelScope relay: caught exception mapped to a 500
with a JSON error envelope that carries a message but no code field. -/
def msErr (m : String) : RelayResponse :=
  { status := 500, headers := corsMs, body := RelayBody.jsonError none m none }

/-- The success response of the ModelScope relay: raw binary body, and the
dimension headers echo the stringified request-body width and height with a
1024 default; they are never measured from the downloaded bytes. -/
def msSuccess (b : MsBody) (bytes : List Nat) : RelayResponse :=
  { status := 200
  , headers := corsMs ++
      [(("Content-Type"), ("image/jpeg")),
       (("X-Image-Width"), (b.width.map toString).getD ("1024")),
       (("X-Image-Height"), (b.height.map toString).getD ("1024"))]
  , body := RelayBody.binary bytes }

/-- The ModelScope relay request handler (generate-modelscope.ts
onRequestPost, post-preflight path).  The credential is the
x-modelscope-key header only; there is no server-side fallback. -/
def modelscopeHandler (headerKey : Option String) (b : MsBody)
    (submit : MsPayload → SubmitResult) (t0 : Nat) (time : Nat → Nat)
    (resp : Nat → PollFetch) (download : String → DownloadResult)
    (fuel : Nat) : RelayResponse :=
  if strFalsy headerKey then msErr ("Missing ModelScope API Key")
  else if jsStrFalsy b.prompt then msErr ("Prompt is required")
  else
    match submit (msPayload b) with
    | SubmitResult.httpError s txt =>
        msErr (("ModelScope Submit Failed: ") ++ toString s ++ (" - ") ++ txt)
    | SubmitResult.ok none => msErr ("No task_id received from ModelScope")
    | SubmitResult.ok (some _) =>
      match (pollLoop t0 time resp fuel 0).1 with
      | LoopResult.outOfFuel => msErr ("poll loop fuel exhausted in model")
      | LoopResult.timedOut => msErr ("Generation timed out")
      | LoopResult.pollError => msErr ("Polling failed")
      | LoopResult.genFailed raw => msErr (("Generation failed: ") ++ raw)
      | LoopResult.noUrl => msErr ("No image URL in success response")
      | LoopResult.success url =>
        match download url with
        | DownloadResult.httpError =>
            msErr ("Failed to download generated image from ModelScope")
        | DownloadResult.ok bytes => msSuccess b bytes

/-! ### Object Storage Uploader (src/unnamed/part_002 lines 383-427) -/

/-- The relevant worker environment: whether the bucket binding exists and
the configured public base URL. -/
structure UploadEnv where
  bucketBound : Bool
  publicUrl : Option String
  deriving DecidableEq

/-- The object write issued to the bucket. -/
structure PutRecord where
  key : String
  contentType : String
  cacheControl : String
  deriving DecidableEq

/-- Body of the uploader response. -/
inductive UploadBody where
  | okUrl (url : String)
  | errMsg (message : String)
  deriving DecidableEq

/-- Uploader response plus the write it performed, if any. -/
structure UploadOutcome where
  status : Nat
  body : UploadBody
  written : Option PutRecord
  deriving DecidableEq

/-- The replace of the single optional trailing slash of the base URL. -/
def stripTrailingSlash (s : String) : String :=
  if s.endsWith ("/") then s.dropRight 1 else s

/-- Key generation: timestamp plus the first 8 characters of a random UUID. -/
def uploadKey (now : Nat) (uuid : String) : String :=
  ("gemini-") ++ toString now ++ ("-") ++ uuid.take 8 ++ (".png")

/-- The uploader handler (post-preflight path).  now models Date.now(),
uuid models crypto.randomUUID(). -/
def uploadHandler (env : UploadEnv) (bodyBytes : List Nat) (now : Nat)
    (uuid : String) : UploadOutcome :=
  if !env.bucketBound || strFalsy env.publicUrl then
    { status := 500,
      body := UploadBody.errMsg ("Server R2 configuration missing."),
      written := none }
  else if bodyBytes.isEmpty then
    { status := 500, body := UploadBody.errMsg ("Empty upload body."),
      written := none }
  else
    let filename := uploadKey now uuid
    let base := stripTrailingSlash (env.publicUrl.getD (""))
    { status := 200
    , body := UploadBody.okUrl (base ++ ("/") ++ filename)
    , written := some { key := filename, contentType := ("image/png"),
                        cacheControl := ("public, max-age=31536000") } }

/-! ### Grid Splitter (src/unnamed/part_004 splitImageToGrid, lines 261-302)

The source decodes the blob into an img element, computes float tile
dimensions W/3 and H/3, sizes one reusable canvas to them (the canvas
dimension assignment truncates to an integer), and for each of the 9 tiles
clears the canvas then draws the sub-region.  The embedding uses exact
integer arithmetic: canvas dimensions are the Nat floors W/3 and H/3, and
the float source offsets x*(W/3) are sampled at their Nat floors
(x*W)/3 with nearest-neighbour pixel lookup.  The canvas is a mutable
surface threaded through the loop, so bleed-freedom is a theorem, not a
modelling assumption. -/

/-- A decoded source image: dimensions plus a pixel function. -/
structure SrcImage where
  width : Nat
  height : Nat
  pixel : Nat → Nat → Nat

/-- The reusable drawing surface: color per coordinate, none = transparent. -/
def Canvas : Type := Nat → Nat → Option Nat

/-- clearRect(0, 0, w, h): resets a w-by-h region to transparent. -/
def clearRect (c : Canvas) (w h : Nat) : Canvas :=
  fun i j => if i < w ∧ j < h then none else c i j

/-- drawImage of the sub-region at (sx, sy) onto the cw-by-ch canvas region;
dest pixels whose source sample falls outside the image are not painted and
keep the previous canvas content. -/
def drawTile (c : Canvas) (img : SrcImage) (sx sy cw ch : Nat) : Canvas :=
  fun i j =>
    if i < cw ∧ j < ch then
      if sx + i < img.width ∧ sy + j < img.height then
        some (img.pixel (sx + i) (sy + j))
      else c i j
    else c i j

/-- An extracted tile: the canvas contents read back row by row
(toDataURL). -/
def Tile : Type := List (List (Option Nat))

/-- Reading the canvas back (toDataURL): ch rows of cw pixels. -/
def captureCanvas (c : Canvas) (cw ch : Nat) : Tile :=
  (List.range ch).map (fun j => (List.range cw).map (fun i => c i j))

/-- The (x, y) grid indices in source push order: inner x loop, outer y
loop. -/
def tileIndices : List (Nat × Nat) :=
  [(0, 0), (1, 0), (2, 0), (0, 1), (1, 1), (2, 1), (0, 2), (1, 2), (2, 2)]

/-- One iteration of the tile loop: clear the shared canvas, draw the
sub-region, capture the tile. -/
def splitStep (img : SrcImage) (acc : Canvas × List Tile) (xy : Nat × Nat) :
    Canvas × List Tile :=
  let cw := img.width / 3
  let ch := img.height / 3
  let sx := xy.1 * img.width / 3
  let sy := xy.2 * img.height / 3
  let c1 := clearRect acc.1 cw ch
  let c2 := drawTile c1 img sx sy cw ch
  (c2, acc.2 ++ [captureCanvas c2 cw ch])

/-- splitImageToGrid: the 9 tiles produced by threading the shared canvas
(initial contents c0) through the grid loop. -/
def splitImageToGrid (img : SrcImage) (c0 : Canvas) : List Tile :=
  (tileIndices.foldl (splitStep img) (c0, [])).2

/-- The canvas-free tile: what a tile must equal when the clear fully
isolates it from previous draws. -/
def pureTile (img : SrcImage) (sx sy cw ch : Nat) : Tile :=
  (List.range ch).map (fun j => (List.range cw).map (fun i =>
    if sx + i < img.width ∧ sy + j < img.height then
      some (img.pixel (sx + i) (sy + j))
    else none))

/-- The canvas-free characterization of the full grid. -/
def gridPure (img : SrcImage) : List Tile :=
  tileIndices.map (fun xy =>
    pureTile img (xy.1 * img.width / 3) (xy.2 * img.height / 3)
      (img.width / 3) (img.height / 3))

/-! ### Concrete inputs used by counterexamples and witnesses -/

/-- A run of n CJK characters (3 UTF-8 bytes, one UTF-16 unit each). -/
def cjkRun (n : Nat) : JsStr := List.replicate n 0x4E2D

/-- 399 CJK characters followed by one astral character (the surrogate pair
0xD83D 0xDE00): 1201 UTF-8 bytes, over the 1200-byte prompt budget by one. -/
def c4CexStr : JsStr := cjkRun 399 ++ [0xD83D, 0xDE00]

/-! ## Theorems -/

theorem utf8Len_nil : utf8Len [] = 0 := rfl

theorem truncShrinkFuel_le (m : Nat) :
    ∀ f s, List.length s ≤ f → utf8Len (truncShrinkFuel m f s) ≤ m := by
  intro f
  induction f with
  | zero =>
    intro s hs
    have hnil : s = [] := List.length_eq_zero.mp (Nat.le_zero.mp hs)
    subst hnil
    simp [truncShrinkFuel, utf8Len]
  | succ f ih =>
    intro s hs
    unfold truncShrinkFuel
    split
    · assumption
    · apply ih
      have hne : s ≠ [] := by
        intro he
        subst he
        simp [utf8Len] at *
      have hpos : 0 < s.length := List.length_pos.mpr hne
      simp only [List.length_dropLast]
      omega

theorem truncShrinkFuel_take (m : Nat) :
    ∀ f s, ∃ k, truncShrinkFuel m f s = s.take k := by
  intro f
  induction f with
  | zero => intro s; exact ⟨s.length, (List.take_length s).symm⟩
  | succ f ih =>
    intro s
    unfold truncShrinkFuel
    split
    · exact ⟨s.length, (List.take_length s).symm⟩
    · obtain ⟨k, hk⟩ := ih s.dropLast
      refine ⟨min k (s.length - 1), ?_⟩
      rw [hk, List.dropLast_eq_take, List.take_take]

theorem truncateByBytes_le (s : JsStr) (m : Nat) :
    utf8Len (truncateByBytes s m) ≤ m := by
  unfold truncateByBytes
  split
  · assumption
  · exact truncShrinkFuel_le m _ _ (Nat.le_refl _)

theorem truncateByBytes_of_le (s : JsStr) (m : Nat) (h : utf8Len s ≤ m) :
    truncateByBytes s m = s := by
  unfold truncateByBytes
  rw [if_pos h]

theorem truncateByBytes_take (s : JsStr) (m : Nat) :
    ∃ k, truncateByBytes s m = s.take k := by
  unfold truncateByBytes
  split
  · exact ⟨s.length, (List.take_length s).symm⟩
  · obtain ⟨k, hk⟩ := truncShrinkFuel_take m (s.take m).length (s.take m)
    exact ⟨min k m, by rw [hk, List.take_take]⟩

/-! ### Dimension Resolver lemmas and claim C2 -/

theorem lookupRow_mem {α : Type} {t : List (String × α)} {k : String} {v : α}
    (h : lookupRow t k = some v) : (k, v) ∈ t := by
  unfold lookupRow at h
  cases hf : t.find? (fun p => decide (p.1 = k)) with
  | none => rw [hf] at h; exact absurd h (by simp)
  | some p =>
    rw [hf] at h
    have hm := List.mem_of_find?_eq_some hf
    have hp := List.find?_some hf
    simp only [decide_eq_true_eq] at hp
    have hv : p.2 = v := by simpa using h
    have hkv : (k, v) = p := by
      cases p
      simp only [Prod.mk.injEq]
      simp only at hp hv
      exact ⟨hp.symm, hv.symm⟩
    rw [hkv]
    exact hm

theorem workerTable_pos :
    ∀ rp ∈ dimTableWorker, ∀ e ∈ rp.2, 0 < e.2.1 ∧ 0 < e.2.2 := by decide

theorem utilsTable_pos :
    ∀ rp ∈ dimTableUtils, ∀ e ∈ rp.2, 0 < e.2.1 ∧ 0 < e.2.2 := by decide

theorem utilsTable_oneK :
    ∀ rp ∈ dimTableUtils,
      ∃ d, lookupRow rp.2 ("1K") = some d ∧ 0 < d.1 ∧ 0 < d.2 := by
  intro rp hm
  fin_cases hm <;> exact ⟨_, rfl, by decide, by decide⟩

/-- C2: every (aspectRatio, qualityTier) pair present in a provider
dimension table resolves deterministically to the recorded positive
(width, height) pair; a pair absent from the worker table fails (throws),
a pair absent from the client-utility table takes the documented silent
fallback (1:1 row, 1K column), and no call ever yields a zero or negative
dimension. -/
theorem claim_C2 :
    (∀ r q wh, lookupDims dimTableWorker r q = some wh →
      getDimensionsWorkerE r q = Except.ok wh ∧ 0 < wh.1 ∧ 0 < wh.2) ∧
    (∀ r q, lookupDims dimTableWorker r q = none →
      ∀ wh, getDimensionsWorkerE r q ≠ Except.ok wh) ∧
    (∀ r q wh, lookupDims dimTableUtils r q = some wh →
      getDimensionsUtils r q = wh ∧ 0 < wh.1 ∧ 0 < wh.2) ∧
    (∀ r q, 0 < (getDimensionsUtils r q).1 ∧ 0 < (getDimensionsUtils r q).2) := by
  refine ⟨?_, ?_, ?_, ?_⟩
  · intro r q wh h
    unfold lookupDims at h
    rcases Option.bind_eq_some.mp h with ⟨row, hr, hq⟩
    have hpos := workerTable_pos (r, row) (lookupRow_mem hr) (q, wh) (lookupRow_mem hq)
    refine ⟨?_, hpos.1, hpos.2⟩
    simp [getDimensionsWorkerE, hr, hq]
  · intro r q h wh
    unfold lookupDims at h
    cases hr : lookupRow dimTableWorker r with
    | none => simp [getDimensionsWorkerE, hr]
    | some row =>
      rw [hr] at h
      simp only [Option.some_bind] at h
      simp [getDimensionsWorkerE, hr, h]
  · intro r q wh h
    unfold lookupDims at h
    rcases Option.bind_eq_some.mp h with ⟨row, hr, hq⟩
    have hpos := utilsTable_pos (r, row) (lookupRow_mem hr) (q, wh) (lookupRow_mem hq)
    refine ⟨?_, hpos.1, hpos.2⟩
    simp [getDimensionsUtils, hr, hq]
  · intro r q
    cases hr : lookupRow dimTableUtils r with
    | some row =>
      cases hq : lookupRow row q with
      | some d =>
        have hpos := utilsTable_pos (r, row) (lookupRow_mem hr) (q, d) (lookupRow_mem hq)
        have hred : getDimensionsUtils r q = d := by
          simp [getDimensionsUtils, hr, hq]
        rw [hred]
        exact hpos
      | none =>
        obtain ⟨d, hd, hp1, hp2⟩ := utilsTable_oneK (r, row) (lookupRow_mem hr)
        have hred : getDimensionsUtils r q = d := by
          simp [getDimensionsUtils, hr, hq, hd]
        rw [hred]
        exact ⟨hp1, hp2⟩
    | none =>
      have h11 : (lookupRow dimTableUtils ("1:1")).getD [] =
          [(("1K"), ((1024 : Nat), (1024 : Nat))),
           (("2K"), ((2048 : Nat), (2048 : Nat))),
           (("4K"), ((4096 : Nat), (4096 : Nat)))] := rfl
      have h1K : lookupRow [(("1K"), ((1024 : Nat), (1024 : Nat))),
           (("2K"), ((2048 : Nat), (2048 : Nat))),
           (("4K"), ((4096 : Nat), (4096 : Nat)))] ("1K") =
          some ((1024 : Nat), (1024 : Nat)) := rfl
      cases hq : lookupRow [(("1K"), ((1024 : Nat), (1024 : Nat))),
           (("2K"), ((2048 : Nat), (2048 : Nat))),
           (("4K"), ((4096 : Nat), (4096 : Nat)))] q with
      | some d =>
        have hm := lookupRow_mem hq
        have hred : getDimensionsUtils r q = d := by
          simp [getDimensionsUtils, hr, h11, hq]
        rw [hred]
        fin_cases hm <;> decide
      | none =>
        have hred : getDimensionsUtils r q = ((1024 : Nat), (1024 : Nat)) := by
          simp [getDimensionsUtils, hr, h11, hq, h1K]
        rw [hred]
        decide

/-- Witness for C2 at the concrete pair 1:1, 1K. -/
theorem claim_C2_witness :
    getDimensionsWorkerE ("1:1") ("1K") = Except.ok ((1024 : Nat), (1024 : Nat)) ∧
    0 < ((1024 : Nat), (1024 : Nat)).1 ∧ 0 < ((1024 : Nat), (1024 : Nat)).2 :=
  claim_C2.1 ("1:1") ("1K") ((1024 : Nat), (1024 : Nat)) (by decide)

/-! ### Prompt truncation: claim C4 -/

set_option maxRecDepth 8000 in
/-- Counterexample to C4: 399 CJK characters followed by one astral
character total 1201 UTF-8 bytes.  The input is well formed UTF-16, but
truncateByBytes with the 1200-byte prompt budget stops after dropping only
the low surrogate (the lone high surrogate re-encodes as the 3-byte
replacement character, bringing the total to exactly 1200), so the returned
string splits the multi-byte astral character and is not valid UTF-16, hence
not serialisable as the original valid UTF-8. -/
theorem claim_C4_counterexample :
    wellFormedUtf16 c4CexStr = true ∧
    utf8Len c4CexStr = 1201 ∧
    utf8Len (truncateByBytes c4CexStr 1200) ≤ 1200 ∧
    truncateByBytes c4CexStr 1200 = cjkRun 399 ++ [0xD83D] ∧
    wellFormedUtf16 (truncateByBytes c4CexStr 1200) = false := by decide

/-- C4 (amended): truncateByBytes always returns a UTF-16 prefix of its
input whose TextEncoder UTF-8 length is at most the byte budget, and
returns strings already within the budget unchanged; the ModelScope relay
applies it with the 1200-byte prompt budget and the 600-byte
negative-prompt budget independently.  (The never-splits-a-multi-byte-
character / remains-valid-UTF-8 part of the original claim is false: the
cut point may fall inside a surrogate pair, see the counterexample.) -/
theorem claim_C4 :
    (∀ s m, utf8Len (truncateByBytes s m) ≤ m) ∧
    (∀ s m, utf8Len s ≤ m → truncateByBytes s m = s) ∧
    (∀ s m, ∃ k, truncateByBytes s m = s.take k) ∧
    (∀ b : MsBody, (msPayload b).prompt = truncateByBytes (b.prompt.getD []) 1200) ∧
    (∀ b : MsBody, ∀ n, b.negative = some n → n.isEmpty = false →
      (msPayload b).negative =
        (if (truncateByBytes n 600).isEmpty then none
         else some (truncateByBytes n 600))) := by
  refine ⟨truncateByBytes_le, truncateByBytes_of_le, truncateByBytes_take, ?_, ?_⟩
  · intro b
    simp [msPayload]
  · intro b n hn hne
    simp [msPayload, hn, hne]

/-- Witness for C4 at concrete inputs: a short ASCII prompt is returned
unchanged, and a nonempty negative prompt is truncated with the 600-byte
budget. -/
theorem claim_C4_witness :
    truncateByBytes [(104 : Nat), 105] 1200 = [(104 : Nat), 105] ∧
    (msPayload { prompt := some [(104 : Nat)], negative := some [(106 : Nat)],
                 width := none, height := none }).negative = some [(106 : Nat)] := by
  constructor
  · exact claim_C4.2.1 [(104 : Nat), 105] 1200 (by decide)
  · have h := claim_C4.2.2.2.2
      { prompt := some [(104 : Nat)], negative := some [(106 : Nat)],
        width := none, height := none } [(106 : Nat)] rfl (by decide)
    rw [h]
    decide

/-! ### Poll loop: claim C5

Wall-clock model: t0 is the startTime reading; time j is the Date.now()
reading at the top of loop iteration j.  Before iteration j the loop has
slept j times for 1000 ms, so a monotone real clock satisfies
t0 + 1000 * j ≤ time j; this hypothesis encodes the monotone clock. -/

theorem pollLoop_timedOut (t0 : Nat) (time : Nat → Nat) (resp : Nat → PollFetch)
    (hclock : ∀ j, t0 + 1000 * j ≤ time j)
    (hresp : ∀ i, nonTerminalB (resp i) = true) :
    ∀ f i, i ≤ 46 → 46 < i + f →
      ∃ k, pollLoop t0 time resp f i = (LoopResult.timedOut, k) ∧ k ≤ 46 := by
  intro f
  induction f with
  | zero => intro i h1 h2; omega
  | succ f ih =>
    intro i h1 h2
    unfold pollLoop
    by_cases hg : time i - t0 > msTimeoutMs
    · rw [if_pos hg]
      exact ⟨i, rfl, h1⟩
    · rw [if_neg hg]
      have hlt : 1000 * i ≤ 45000 := by
        have := hclock i
        unfold msTimeoutMs at hg
        omega
      have hi45 : i ≤ 45 := by omega
      have hnt := hresp i
      cases hr : resp i with
      | httpError => rw [hr] at hnt; simp [nonTerminalB] at hnt
      | ok st outs raw =>
        rw [hr] at hnt
        simp only [nonTerminalB, Bool.and_eq_true, Bool.not_eq_true',
          decide_eq_false_iff_not] at hnt
        dsimp only
        rw [if_neg hnt.1, if_neg hnt.2]
        exact ih (i + 1) (by omega) (by omega)

theorem pollLoop_total (t0 : Nat) (time : Nat → Nat) (resp : Nat → PollFetch)
    (hclock : ∀ j, t0 + 1000 * j ≤ time j) :
    ∀ f i, i ≤ 46 → 46 < i + f →
      (pollLoop t0 time resp f i).1 ≠ LoopResult.outOfFuel := by
  intro f
  induction f with
  | zero => intro i h1 h2; omega
  | succ f ih =>
    intro i h1 h2
    unfold pollLoop
    by_cases hg : time i - t0 > msTimeoutMs
    · rw [if_pos hg]; simp
    · rw [if_neg hg]
      have hlt : 1000 * i ≤ 45000 := by
        have := hclock i
        unfold msTimeoutMs at hg
        omega
      have hi45 : i ≤ 45 := by omega
      cases hr : resp i with
      | httpError => simp
      | ok st outs raw =>
        dsimp only
        by_cases hs : st = ("SUCCEED")
        · rw [if_pos hs]
          cases outs.head? with
          | none => simp
          | some u =>
            dsimp only
            by_cases hu : u = ""
            · rw [if_pos hu]; simp
            · rw [if_neg hu]; simp
        · rw [if_neg hs]
          by_cases hfd : st = ("FAILED")
          · rw [if_pos hfd]; simp
          · rw [if_neg hfd]
            exact ih (i + 1) (by omega) (by omega)

/-- C5: when the poll fetches never return a terminal status before the
45-second wall-clock budget elapses, the poll loop of the ModelScope relay
terminates with the timeout after at most 46 polls (issuing no poll after
the failure), and the relay answers with the Generation timed out error
(a JSON error, no partial result); moreover, under the monotone-clock
hypothesis the fuel-indexed embedding of the while(true) loop never reaches
its fuel bound for any poll responses, i.e. the loop is total. -/
theorem claim_C5 :
    (∀ t0 time resp,
      (∀ j, t0 + 1000 * j ≤ time j) →
      (∀ i, nonTerminalB (resp i) = true) →
      ∃ k, pollLoop t0 time resp 47 0 = (LoopResult.timedOut, k) ∧ k ≤ 46) ∧
    (∀ t0 time resp,
      (∀ j, t0 + 1000 * j ≤ time j) →
      ∀ f, 47 ≤ f → (pollLoop t0 time resp f 0).1 ≠ LoopResult.outOfFuel) ∧
    (∀ hk b submit t0 time resp download tid,
      (∀ j, t0 + 1000 * j ≤ time j) →
      (∀ i, nonTerminalB (resp i) = true) →
      strFalsy hk = false → jsStrFalsy b.prompt = false →
      submit (msPayload b) = SubmitResult.ok (some tid) →
      modelscopeHandler hk b submit t0 time resp download 47 =
        msErr ("Generation timed out")) := by
  refine ⟨?_, ?_, ?_⟩
  · intro t0 time resp hclock hresp
    exact pollLoop_timedOut t0 time resp hclock hresp 47 0 (by omega) (by omega)
  · intro t0 time resp hclock f hf
    exact pollLoop_total t0 time resp hclock f 0 (by omega) (by omega)
  · intro hk b submit t0 time resp download tid hclock hresp hkey hprompt hsubmit
    obtain ⟨k, hpoll, _⟩ :=
      pollLoop_timedOut t0 time resp hclock hresp 47 0 (by omega) (by omega)
    simp [modelscopeHandler, hkey, hprompt, hsubmit, hpoll]

/-- Witness for C5: the exact clock advancing 1000 ms per poll and a poll
oracle stuck on a RUNNING status make the relay answer the timeout error. -/
theorem claim_C5_witness :
    modelscopeHandler (some ("sk-1"))
      { prompt := some [(104 : Nat)], negative := none,
        width := none, height := none }
      (fun _ => SubmitResult.ok (some ("task-1")))
      0 (fun j => 1000 * j)
      (fun _ => PollFetch.ok ("RUNNING") [] (""))
      (fun _ => DownloadResult.ok []) 47 =
      msErr ("Generation timed out") :=
  claim_C5.2.2 (some ("sk-1"))
    { prompt := some [(104 : Nat)], negative := none,
      width := none, height := none }
    (fun _ => SubmitResult.ok (some ("task-1")))
    0 (fun j => 1000 * j)
    (fun _ => PollFetch.ok ("RUNNING") [] (""))
    (fun _ => DownloadResult.ok []) ("task-1")
    (fun j => by show 0 + 1000 * j ≤ 1000 * j; omega) (fun i => rfl) rfl rfl rfl

/-! ### Handler characterizations -/

theorem msHandler_cases (hk : Option String) (b : MsBody)
    (submit : MsPayload → SubmitResult) (t0 : Nat) (time : Nat → Nat)
    (resp : Nat → PollFetch) (download : String → DownloadResult) (fuel : Nat) :
    (∃ m, modelscopeHandler hk b submit t0 time resp download fuel = msErr m) ∨
    (∃ bytes, modelscopeHandler hk b submit t0 time resp download fuel =
      msSuccess b bytes) := by
  unfold modelscopeHandler
  split
  · exact Or.inl ⟨_, rfl⟩
  · split
    · exact Or.inl ⟨_, rfl⟩
    · cases submit (msPayload b) with
      | httpError s txt => dsimp only; exact Or.inl ⟨_, rfl⟩
      | ok tid =>
        cases tid with
        | none => dsimp only; exact Or.inl ⟨_, rfl⟩
        | some t =>
          dsimp only
          cases (pollLoop t0 time resp fuel 0).1 with
          | outOfFuel => dsimp only; exact Or.inl ⟨_, rfl⟩
          | timedOut => dsimp only; exact Or.inl ⟨_, rfl⟩
          | pollError => dsimp only; exact Or.inl ⟨_, rfl⟩
          | genFailed raw => dsimp only; exact Or.inl ⟨_, rfl⟩
          | noUrl => dsimp only; exact Or.inl ⟨_, rfl⟩
          | success url =>
            dsimp only
            cases download url with
            | httpError => exact Or.inl ⟨_, rfl⟩
            | ok bytes => exact Or.inr ⟨bytes, rfl⟩

theorem gemWorker_cases (req : GenReq) (envKey : Option String)
    (up : GemUpstream) :
    (∃ m d, geminiWorkerHandler req envKey up =
      errG 500 ("INTERNAL_ERROR") m d) ∨
    (∃ m, geminiWorkerHandler req envKey up =
      errG 400 ("INVALID_INPUT") m none) ∨
    (∃ s txt c m, up = GemUpstream.httpError s txt ∧
      geminiWorkerHandler req envKey up = errG s c m (some (txt.take 100))) ∨
    (∃ d w hpx, geminiWorkerHandler req envKey up = gemSuccess d w hpx) := by
  unfold geminiWorkerHandler
  split
  · exact Or.inl ⟨_, _, rfl⟩
  · split
    · exact Or.inr (Or.inl ⟨_, rfl⟩)
    · split
      · exact Or.inr (Or.inl ⟨_, rfl⟩)
      · split
        · exact Or.inr (Or.inl ⟨_, rfl⟩)
        · cases getDimensionsWorkerE req.ratio req.quality with
          | error e => dsimp only; exact Or.inl ⟨_, _, rfl⟩
          | ok wh =>
            dsimp only
            cases up with
            | httpError s txt =>
              dsimp only
              exact Or.inr (Or.inr (Or.inl ⟨s, txt, _, _, rfl, rfl⟩))
            | ok parts =>
              dsimp only
              cases extractWorker parts with
              | none => exact Or.inl ⟨_, _, rfl⟩
              | some d =>
                exact Or.inr (Or.inr (Or.inr ⟨d, wh.1, wh.2, rfl⟩))

theorem msSuccess_widthHeader (b : MsBody) (bytes : List Nat) :
    headerVal (msSuccess b bytes).headers ("X-Image-Width") =
      some ((b.width.map toString).getD ("1024")) := rfl

theorem msSuccess_heightHeader (b : MsBody) (bytes : List Nat) :
    headerVal (msSuccess b bytes).headers ("X-Image-Height") =
      some ((b.height.map toString).getD ("1024")) := rfl

theorem optDimStr_num (w : Option Nat) :
    ∃ n : Nat, ((w.map toString).getD ("1024")) = toString n := by
  cases w with
  | none => exact ⟨1024, rfl⟩
  | some n => exact ⟨n, rfl⟩

/-! ### Wire format: claim C1 -/

/-- Counterexample to C1: the Gemini worker relay answers a successful
generation with HTTP 200 whose body is the JSON envelope holding base64
(not raw binary bytes) and whose headers carry no X-Image-Width or
X-Image-Height, contradicting binary-with-header-metadata for every Edge
Relay success. -/
theorem claim_C1_counterexample :
    (geminiWorkerHandler
        { headerApiKey := none, prompt := some [(104 : Nat)],
          negativePrompt := none, ratio := ("1:1"), quality := ("1K") }
        (some ("k"))
        (GemUpstream.ok [GPart.mk none (some (InlinePart.mk ("image/png") ("QUFB")))])).status
      = 200 ∧
    isBinaryBody (geminiWorkerHandler
        { headerApiKey := none, prompt := some [(104 : Nat)],
          negativePrompt := none, ratio := ("1:1"), quality := ("1K") }
        (some ("k"))
        (GemUpstream.ok [GPart.mk none (some (InlinePart.mk ("image/png") ("QUFB")))])).body
      = false ∧
    isJsonSuccessEnvelope (geminiWorkerHandler
        { headerApiKey := none, prompt := some [(104 : Nat)],
          negativePrompt := none, ratio := ("1:1"), quality := ("1K") }
        (some ("k"))
        (GemUpstream.ok [GPart.mk none (some (InlinePart.mk ("image/png") ("QUFB")))])).body
      = true ∧
    headerVal (geminiWorkerHandler
        { headerApiKey := none, prompt := some [(104 : Nat)],
          negativePrompt := none, ratio := ("1:1"), quality := ("1K") }
        (some ("k"))
        (GemUpstream.ok [GPart.mk none (some (InlinePart.mk ("image/png") ("QUFB")))])).headers
      ("X-Image-Width") = none := by decide

/-- C1 (amended): only the ModelScope relay follows the
binary-success-with-numeric-dimension-headers wire format, with JSON
reserved for its error path; the Gemini worker relay instead answers
success with an HTTP 200 JSON envelope (base64 plus dimensions in the
body) and carries no dimension headers. -/
theorem claim_C1 :
    (∀ hk b submit t0 time resp download fuel,
      (modelscopeHandler hk b submit t0 time resp download fuel).status = 200 →
      isBinaryBody (modelscopeHandler hk b submit t0 time resp download fuel).body = true ∧
      (∃ n : Nat, headerVal (modelscopeHandler hk b submit t0 time resp download fuel).headers
        ("X-Image-Width") = some (toString n)) ∧
      (∃ n : Nat, headerVal (modelscopeHandler hk b submit t0 time resp download fuel).headers
        ("X-Image-Height") = some (toString n))) ∧
    (∀ hk b submit t0 time resp download fuel,
      (modelscopeHandler hk b submit t0 time resp download fuel).status ≠ 200 →
      (modelscopeHandler hk b submit t0 time resp download fuel).status = 500 ∧
      isJsonErrorBody (modelscopeHandler hk b submit t0 time resp download fuel).body = true) ∧
    (∀ req envKey up, upstreamStatusOk up = true →
      (geminiWorkerHandler req envKey up).status = 200 →
      ∃ d w hpx, geminiWorkerHandler req envKey up = gemSuccess d w hpx) := by
  refine ⟨?_, ?_, ?_⟩
  · intro hk b submit t0 time resp download fuel h200
    rcases msHandler_cases hk b submit t0 time resp download fuel with ⟨m, hm⟩ | ⟨bytes, hb⟩
    · rw [hm] at h200
      simp [msErr] at h200
    · rw [hb]
      refine ⟨rfl, ?_, ?_⟩
      · rw [msSuccess_widthHeader]
        obtain ⟨n, hn⟩ := optDimStr_num b.width
        exact ⟨n, by rw [hn]⟩
      · rw [msSuccess_heightHeader]
        obtain ⟨n, hn⟩ := optDimStr_num b.height
        exact ⟨n, by rw [hn]⟩
  · intro hk b submit t0 time resp download fuel hne
    rcases msHandler_cases hk b submit t0 time resp download fuel with ⟨m, hm⟩ | ⟨bytes, hb⟩
    · rw [hm]
      exact ⟨rfl, rfl⟩
    · rw [hb] at hne
      simp [msSuccess] at hne
  · intro req envKey up hup h200
    rcases gemWorker_cases req envKey up with
      ⟨m, d, hm⟩ | ⟨m, hm⟩ | ⟨s, txt, c, m, hup2, hm⟩ | ⟨d, w, hpx, hm⟩
    · rw [hm] at h200; simp [errG] at h200
    · rw [hm] at h200; simp [errG] at h200
    · rw [hm] at h200
      simp only [errG] at h200
      rw [hup2] at hup
      simp only [upstreamStatusOk, Bool.or_eq_true, decide_eq_true_eq] at hup
      omega
    · exact ⟨d, w, hpx, hm⟩

/-- Witness for C1: a scripted successful ModelScope run yields binary with
numeric headers, and the upstream-status side conditions hold at a success
response. -/
theorem claim_C1_witness :
    isBinaryBody (modelscopeHandler (some ("sk-1"))
      { prompt := some [(104 : Nat)], negative := none,
        width := some 800, height := some 600 }
      (fun _ => SubmitResult.ok (some ("t1")))
      0 (fun j => 1000 * j)
      (fun _ => PollFetch.ok ("SUCCEED") [("u1")] (""))
      (fun _ => DownloadResult.ok [(7 : Nat)]) 47).body = true ∧
    (∃ n : Nat, headerVal (modelscopeHandler (some ("sk-1"))
      { prompt := some [(104 : Nat)], negative := none,
        width := some 800, height := some 600 }
      (fun _ => SubmitResult.ok (some ("t1")))
      0 (fun j => 1000 * j)
      (fun _ => PollFetch.ok ("SUCCEED") [("u1")] (""))
      (fun _ => DownloadResult.ok [(7 : Nat)]) 47).headers
      ("X-Image-Width") = some (toString n)) ∧
    (∃ n : Nat, headerVal (modelscopeHandler (some ("sk-1"))
      { prompt := some [(104 : Nat)], negative := none,
        width := some 800, height := some 600 }
      (fun _ => SubmitResult.ok (some ("t1")))
      0 (fun j => 1000 * j)
      (fun _ => PollFetch.ok ("SUCCEED") [("u1")] (""))
      (fun _ => DownloadResult.ok [(7 : Nat)]) 47).headers
      ("X-Image-Height") = some (toString n)) :=
  claim_C1.1 (some ("sk-1"))
    { prompt := some [(104 : Nat)], negative := none,
      width := some 800, height := some 600 }
    (fun _ => SubmitResult.ok (some ("t1")))
    0 (fun j => 1000 * j)
    (fun _ => PollFetch.ok ("SUCCEED") [("u1")] (""))
    (fun _ => DownloadResult.ok [(7 : Nat)]) 47 (by decide)

/-! ### First-inline-part extraction: claim C3 -/

/-- Counterexample to C3: a 200 response whose parts are a text part
followed by an inline-image part.  The worker relay inspects only
parts[0] and fails (MissingImageData path) although an inline-image part
is present; the client-side generateImageDirectly finds it. -/
theorem claim_C3_counterexample :
    extractWorker
      [GPart.mk (some ("cannot comply")) none,
       GPart.mk none (some (InlinePart.mk ("image/png") ("QUFB")))]
      = none ∧
    (List.find? (fun p => p.inlineData.isSome)
      [GPart.mk (some ("cannot comply")) none,
       GPart.mk none (some (InlinePart.mk ("image/png") ("QUFB")))]).isSome
      = true ∧
    extractDirect
      [GPart.mk (some ("cannot comply")) none,
       GPart.mk none (some (InlinePart.mk ("image/png") ("QUFB")))]
      = some ("QUFB") := by decide

/-- C3 (amended): generateImageDirectly scans the parts list and returns
the data of the first part carrying inline data (failing only when no part
does, or when that first inline part is empty), independent of its
position; the worker relay of generate-image.ts instead inspects only the
first part and fails whenever parts[0] lacks nonempty inline data, even if
a later part carries the image. -/
theorem claim_C3 :
    (∀ parts p d, List.find? (fun q => q.inlineData.isSome) parts = some p →
      p.inlineData = some d → d.data ≠ "" →
      extractDirect parts = some d.data) ∧
    (∀ parts, List.find? (fun q => q.inlineData.isSome) parts = none →
      extractDirect parts = none) ∧
    (∀ p rest d, p.inlineData = some d → d.data ≠ "" →
      extractWorker (p :: rest) = some d.data) ∧
    (∀ p rest, p.inlineData = none → extractWorker (p :: rest) = none) ∧
    extractWorker [] = none := by
  refine ⟨?_, ?_, ?_, ?_, rfl⟩
  · intro parts p d hfind hd hne
    simp only [extractDirect, hfind, hd]
    rw [if_neg hne]
  · intro parts hfind
    simp only [extractDirect, hfind]
  · intro p rest d hd hne
    simp only [extractWorker, List.head?_cons, hd]
    rw [if_neg hne]
  · intro p rest hd
    simp only [extractWorker, List.head?_cons, hd]

/-- Witness for C3 at a concrete parts list with the image in the second
position for the direct adapter and in the first position for the worker. -/
theorem claim_C3_witness :
    extractDirect
      [GPart.mk (some ("note")) none,
       GPart.mk none (some (InlinePart.mk ("image/png") ("Zm9v")))]
      = some ("Zm9v") ∧
    extractWorker
      [GPart.mk none (some (InlinePart.mk ("image/png") ("YmFy")))]
      = some ("YmFy") := by
  constructor
  · exact claim_C3.1
      [GPart.mk (some ("note")) none,
       GPart.mk none (some (InlinePart.mk ("image/png") ("Zm9v")))]
      (GPart.mk none (some (InlinePart.mk ("image/png") ("Zm9v"))))
      (InlinePart.mk ("image/png") ("Zm9v"))
      (by decide) rfl (by decide)
  · exact claim_C3.2.2.1
      (GPart.mk none (some (InlinePart.mk ("image/png") ("YmFy"))))
      [] (InlinePart.mk ("image/png") ("YmFy")) rfl (by decide)

/-! ### Error translation: claim C6 -/

theorem contains_mem {l : List String} {a : String}
    (h : l.contains a = true) : a ∈ l := by
  simpa using h

theorem validPair_isOk :
    ∀ r ∈ validRatios, ∀ q ∈ validQualities,
      exceptIsOk (getDimensionsWorkerE r q) = true := by decide

theorem validPair_dims (r q : String) (hr : validRatios.contains r = true)
    (hq : validQualities.contains q = true) :
    ∃ wh, getDimensionsWorkerE r q = Except.ok wh := by
  have h := validPair_isOk r (contains_mem hr) q (contains_mem hq)
  cases he : getDimensionsWorkerE r q with
  | error e => rw [he] at h; simp [exceptIsOk] at h
  | ok wh => exact ⟨wh, rfl⟩

/-- Counterexample to C6: a request lacking any credential is a
client-correctable failure, yet the ModelScope relay answers it with HTTP
500 (not a 4xx) and an error envelope carrying no code field. -/
theorem claim_C6_counterexample :
    (modelscopeHandler none
      { prompt := some [(104 : Nat)], negative := none,
        width := none, height := none }
      (fun _ => SubmitResult.ok none) 0 (fun _ => 0)
      (fun _ => PollFetch.httpError) (fun _ => DownloadResult.ok []) 47).status
      = 500 ∧
    ¬(400 ≤ (modelscopeHandler none
      { prompt := some [(104 : Nat)], negative := none,
        width := none, height := none }
      (fun _ => SubmitResult.ok none) 0 (fun _ => 0)
      (fun _ => PollFetch.httpError) (fun _ => DownloadResult.ok []) 47).status ∧
      (modelscopeHandler none
      { prompt := some [(104 : Nat)], negative := none,
        width := none, height := none }
      (fun _ => SubmitResult.ok none) 0 (fun _ => 0)
      (fun _ => PollFetch.httpError) (fun _ => DownloadResult.ok []) 47).status ≤ 499) ∧
    (modelscopeHandler none
      { prompt := some [(104 : Nat)], negative := none,
        width := none, height := none }
      (fun _ => SubmitResult.ok none) 0 (fun _ => 0)
      (fun _ => PollFetch.httpError) (fun _ => DownloadResult.ok []) 47).body
      = RelayBody.jsonError none ("Missing ModelScope API Key") none := by decide

/-- C6 (amended): every adapter failure yields a JSON error envelope, but
the status mapping is relay-specific.  The Gemini worker relay answers 400
INVALID_INPUT for prompt, ratio and quality validation failures, echoes the
provider status (with a mapped code) for upstream failures, and answers 500
for everything else including the missing server credential; the ModelScope
relay answers 500 with a code-less envelope for every failure, including
the missing client credential. -/
theorem claim_C6 :
    (∀ req k up, strFalsy k = true →
      geminiWorkerHandler req k up =
        errG 500 ("INTERNAL_ERROR") ("服务器配置错误：缺少 API Key。") none) ∧
    (∀ req k up, strFalsy k = false → promptInvalid req.prompt = true →
      geminiWorkerHandler req k up =
        errG 400 ("INVALID_INPUT") ("提示词必填且不能超过 2000 字符。") none) ∧
    (∀ req k up, strFalsy k = false → promptInvalid req.prompt = false →
      validRatios.contains req.ratio = false →
      geminiWorkerHandler req k up =
        errG 400 ("INVALID_INPUT") ("无效的宽高比。") none) ∧
    (∀ req k up, strFalsy k = false → promptInvalid req.prompt = false →
      validRatios.contains req.ratio = true →
      validQualities.contains req.quality = false →
      geminiWorkerHandler req k up =
        errG 400 ("INVALID_INPUT") ("无效的清晰度设置。") none) ∧
    (∀ req k s txt, strFalsy k = false → promptInvalid req.prompt = false →
      validRatios.contains req.ratio = true →
      validQualities.contains req.quality = true →
      geminiWorkerHandler req k (GemUpstream.httpError s txt) =
        errG s
          (if s = 429 then ("RATE_LIMITED")
           else if s = 400 then ("INVALID_INPUT") else ("UPSTREAM_ERROR"))
          (if s = 429 then ("达到全局生成限制。请一分钟后再试。")
           else if s = 400 then ("模型拒绝了该提示词（安全或格式问题）。")
           else ("通过 Gemini API 生成图片失败。"))
          (some (txt.take 100))) ∧
    (∀ req k parts, strFalsy k = false → promptInvalid req.prompt = false →
      validRatios.contains req.ratio = true →
      validQualities.contains req.quality = true →
      extractWorker parts = none →
      geminiWorkerHandler req k (GemUpstream.ok parts) =
        errG 500 ("INTERNAL_ERROR") ("API 返回了意外的格式（无图像数据）。") none) ∧
    (∀ hk b submit t0 time resp download fuel,
      ((modelscopeHandler hk b submit t0 time resp download fuel).status = 200 ∧
        isBinaryBody (modelscopeHandler hk b submit t0 time resp download fuel).body = true) ∨
      ((modelscopeHandler hk b submit t0 time resp download fuel).status = 500 ∧
        ∃ m, (modelscopeHandler hk b submit t0 time resp download fuel).body =
          RelayBody.jsonError none m none)) := by
  refine ⟨?_, ?_, ?_, ?_, ?_, ?_, ?_⟩
  · intro req k up hk
    simp [geminiWorkerHandler, hk]
  · intro req k up hk hp
    simp [geminiWorkerHandler, hk, hp]
  · intro req k up hk hp hr
    have hr2 : req.ratio ∉ validRatios := by simpa using hr
    simp [geminiWorkerHandler, hk, hp, hr2]
  · intro req k up hk hp hr hq
    have hr2 : req.ratio ∈ validRatios := contains_mem hr
    have hq2 : req.quality ∉ validQualities := by simpa using hq
    simp [geminiWorkerHandler, hk, hp, hr2, hq2]
  · intro req k s txt hk hp hr hq
    obtain ⟨wh, hwh⟩ := validPair_dims req.ratio req.quality hr hq
    have hr2 : req.ratio ∈ validRatios := contains_mem hr
    have hq2 : req.quality ∈ validQualities := contains_mem hq
    simp [geminiWorkerHandler, hk, hp, hr2, hq2, hwh]
  · intro req k parts hk hp hr hq hex
    obtain ⟨wh, hwh⟩ := validPair_dims req.ratio req.quality hr hq
    have hr2 : req.ratio ∈ validRatios := contains_mem hr
    have hq2 : req.quality ∈ validQualities := contains_mem hq
    simp [geminiWorkerHandler, hk, hp, hr2, hq2, hwh, hex]
  · intro hk b submit t0 time resp download fuel
    rcases msHandler_cases hk b submit t0 time resp download fuel with ⟨m, hm⟩ | ⟨bytes, hb⟩
    · rw [hm]
      exact Or.inr ⟨rfl, m, rfl⟩
    · rw [hb]
      exact Or.inl ⟨rfl, rfl⟩

/-- Witness for C6: the concrete validation failure of an empty prompt on
the Gemini worker relay is answered with the 400 INVALID_INPUT envelope. -/
theorem claim_C6_witness :
    geminiWorkerHandler
      { headerApiKey := none, prompt := some [], negativePrompt := none,
        ratio := ("1:1"), quality := ("1K") }
      (some ("k")) (GemUpstream.ok []) =
      errG 400 ("INVALID_INPUT") ("提示词必填且不能超过 2000 字符。") none :=
  claim_C6.2.1
    { headerApiKey := none, prompt := some [], negativePrompt := none,
      ratio := ("1:1"), quality := ("1K") }
    (some ("k")) (GemUpstream.ok []) rfl rfl

/-! ### Credential precedence: claim C7 -/

/-- Counterexample to C7: the Gemini worker relay of generate-image.ts
never reads the credential header; with the header key present and the
server credential absent the request still fails (HTTP 500), contradicting
header-first-with-server-fallback for every inbound generation request. -/
theorem claim_C7_counterexample :
    strFalsy (some ("sk-123")) = false ∧
    (geminiWorkerHandler
      { headerApiKey := some ("sk-123"), prompt := some [(104 : Nat)],
        negativePrompt := none, ratio := ("1:1"), quality := ("1K") }
      none (GemUpstream.ok [GPart.mk none (some (InlinePart.mk ("image/png") ("QUFB")))])).status
      = 500 ∧
    isJsonErrorBody (geminiWorkerHandler
      { headerApiKey := some ("sk-123"), prompt := some [(104 : Nat)],
        negativePrompt := none, ratio := ("1:1"), quality := ("1K") }
      none (GemUpstream.ok [GPart.mk none (some (InlinePart.mk ("image/png") ("QUFB")))])).body
      = true := by decide

/-- C7 (amended): credential resolution is relay-specific.  The R2-enabled
Gemini relay of part_000 uses the header key with the server key as
fallback and fails only when both are falsy; the Gemini worker relay of
generate-image.ts uses only the server credential and ignores the header
entirely; the ModelScope relay uses only the header credential. -/
theorem claim_C7 :
    (∀ hk e, strFalsy hk = false → part000Cred hk e = Except.ok (hk.getD (""))) ∧
    (∀ hk e, strFalsy hk = true → strFalsy e = false →
      part000Cred hk e = Except.ok (e.getD (""))) ∧
    (∀ hk e, strFalsy hk = true → strFalsy e = true →
      part000Cred hk e =
        Except.error ("缺少 API Key。请在设置中输入 Key 或配置服务器环境变量。")) ∧
    (∀ req k up hk2,
      geminiWorkerHandler { req with headerApiKey := hk2 } k up =
        geminiWorkerHandler req k up) ∧
    (∀ req k up, strFalsy k = true →
      geminiWorkerHandler req k up =
        errG 500 ("INTERNAL_ERROR") ("服务器配置错误：缺少 API Key。") none) ∧
    (∀ hk b submit t0 time resp download fuel, strFalsy hk = true →
      modelscopeHandler hk b submit t0 time resp download fuel =
        msErr ("Missing ModelScope API Key")) := by
  refine ⟨?_, ?_, ?_, ?_, ?_, ?_⟩
  · intro hk e h
    simp [part000Cred, jsOr, h]
  · intro hk e h he
    simp [part000Cred, jsOr, h, he]
  · intro hk e h he
    simp [part000Cred, jsOr, h, he]
  · intro req k up hk2
    rfl
  · intro req k up hk
    simp [geminiWorkerHandler, hk]
  · intro hk b submit t0 time resp download fuel h
    simp [modelscopeHandler, h]

/-- Witness for C7: header key present wins in the part_000 relay; both
keys absent fail there; the worker relay fails exactly on the falsy server
key. -/
theorem claim_C7_witness :
    part000Cred (some ("h-key")) (some ("e-key")) = Except.ok ("h-key") ∧
    part000Cred none none =
      Except.error ("缺少 API Key。请在设置中输入 Key 或配置服务器环境变量。") ∧
    modelscopeHandler none
      { prompt := some [(104 : Nat)], negative := none,
        width := none, height := none }
      (fun _ => SubmitResult.ok none) 0 (fun _ => 0)
      (fun _ => PollFetch.httpError) (fun _ => DownloadResult.ok []) 47 =
      msErr ("Missing ModelScope API Key") := by
  refine ⟨?_, ?_, ?_⟩
  · exact claim_C7.1 (some ("h-key")) (some ("e-key")) rfl
  · exact claim_C7.2.2.1 none none rfl rfl
  · exact claim_C7.2.2.2.2.2 none
      { prompt := some [(104 : Nat)], negative := none,
        width := none, height := none }
      (fun _ => SubmitResult.ok none) 0 (fun _ => 0)
      (fun _ => PollFetch.httpError) (fun _ => DownloadResult.ok []) 47 rfl

/-! ### Dimension headers echo the request: claim C10 -/

/-- C10: on every successful ModelScope relay response the X-Image-Width
and X-Image-Height header values are the stringified width and height taken
from the request body, defaulting to 1024 when absent; and the headers (and
status) are identical across runs that download different image bytes, so
they are never derived from the downloaded artifact. -/
theorem claim_C10 :
    (∀ hk b submit t0 time resp download fuel,
      (modelscopeHandler hk b submit t0 time resp download fuel).status = 200 →
      headerVal (modelscopeHandler hk b submit t0 time resp download fuel).headers
        ("X-Image-Width") = some ((b.width.map toString).getD ("1024")) ∧
      headerVal (modelscopeHandler hk b submit t0 time resp download fuel).headers
        ("X-Image-Height") = some ((b.height.map toString).getD ("1024"))) ∧
    (∀ hk b submit t0 time resp fuel bytes1 bytes2,
      (modelscopeHandler hk b submit t0 time resp
        (fun _ => DownloadResult.ok bytes1) fuel).headers =
      (modelscopeHandler hk b submit t0 time resp
        (fun _ => DownloadResult.ok bytes2) fuel).headers ∧
      (modelscopeHandler hk b submit t0 time resp
        (fun _ => DownloadResult.ok bytes1) fuel).status =
      (modelscopeHandler hk b submit t0 time resp
        (fun _ => DownloadResult.ok bytes2) fuel).status) := by
  constructor
  · intro hk b submit t0 time resp download fuel h200
    rcases msHandler_cases hk b submit t0 time resp download fuel with ⟨m, hm⟩ | ⟨bytes, hb⟩
    · rw [hm] at h200
      simp [msErr] at h200
    · rw [hb]
      exact ⟨msSuccess_widthHeader b bytes, msSuccess_heightHeader b bytes⟩
  · intro hk b submit t0 time resp fuel bytes1 bytes2
    unfold modelscopeHandler
    split
    · exact ⟨rfl, rfl⟩
    · split
      · exact ⟨rfl, rfl⟩
      · cases submit (msPayload b) with
        | httpError s txt => exact ⟨rfl, rfl⟩
        | ok tid =>
          cases tid with
          | none => exact ⟨rfl, rfl⟩
          | some t =>
            dsimp only
            cases (pollLoop t0 time resp fuel 0).1 with
            | outOfFuel => exact ⟨rfl, rfl⟩
            | timedOut => exact ⟨rfl, rfl⟩
            | pollError => exact ⟨rfl, rfl⟩
            | genFailed raw => exact ⟨rfl, rfl⟩
            | noUrl => exact ⟨rfl, rfl⟩
            | success url => exact ⟨rfl, rfl⟩

/-- Witness for C10: a scripted successful run with requested dimensions
800 by 600 answers with headers 800 and 600 regardless of the downloaded
bytes. -/
theorem claim_C10_witness :
    headerVal (modelscopeHandler (some ("sk-1"))
      { prompt := some [(104 : Nat)], negative := none,
        width := some 800, height := some 600 }
      (fun _ => SubmitResult.ok (some ("t1")))
      0 (fun j => 1000 * j)
      (fun _ => PollFetch.ok ("SUCCEED") [("u1")] (""))
      (fun _ => DownloadResult.ok [(7 : Nat)]) 47).headers
      ("X-Image-Width") = some (((some (800 : Nat)).map toString).getD ("1024")) ∧
    headerVal (modelscopeHandler (some ("sk-1"))
      { prompt := some [(104 : Nat)], negative := none,
        width := some 800, height := some 600 }
      (fun _ => SubmitResult.ok (some ("t1")))
      0 (fun j => 1000 * j)
      (fun _ => PollFetch.ok ("SUCCEED") [("u1")] (""))
      (fun _ => DownloadResult.ok [(7 : Nat)]) 47).headers
      ("X-Image-Height") = some (((some (600 : Nat)).map toString).getD ("1024")) :=
  claim_C10.1 (some ("sk-1"))
    { prompt := some [(104 : Nat)], negative := none,
      width := some 800, height := some 600 }
    (fun _ => SubmitResult.ok (some ("t1")))
    0 (fun j => 1000 * j)
    (fun _ => PollFetch.ok ("SUCCEED") [("u1")] (""))
    (fun _ => DownloadResult.ok [(7 : Nat)]) 47 (by decide)

/-! ### Object Storage Uploader: claim C8 -/

/-- C8: with the bucket binding and a nonempty public base URL configured,
the uploader rejects a 0-byte body with HTTP 500 and the Empty upload body
message without writing any object; for every nonempty body it writes one
object under the key gemini-timestamp-8charSuffix.png with the fixed
image/png content type and the year-long cache-control directive, and
returns the base URL with its single optional trailing slash stripped,
followed by a slash and the key. -/
theorem claim_C8 (env : UploadEnv) (u : String)
    (hb : env.bucketBound = true) (hu : env.publicUrl = some u)
    (hne : u ≠ "") :
    (∀ now uuid, uploadHandler env [] now uuid =
      { status := 500, body := UploadBody.errMsg ("Empty upload body."),
        written := none }) ∧
    (∀ bodyBytes now uuid, bodyBytes ≠ ([] : List Nat) →
      uploadHandler env bodyBytes now uuid =
        { status := 200
        , body := UploadBody.okUrl
            (stripTrailingSlash u ++ ("/") ++ uploadKey now uuid)
        , written := some (PutRecord.mk (uploadKey now uuid)
            ("image/png") ("public, max-age=31536000")) }) ∧
    (∀ now uuid, uploadKey now uuid =
      ("gemini-") ++ toString now ++ ("-") ++ uuid.take 8 ++ (".png")) ∧
    (∀ s : String, s.endsWith ("/") = true →
      stripTrailingSlash s = s.dropRight 1) ∧
    (∀ s : String, s.endsWith ("/") = false → stripTrailingSlash s = s) := by
  refine ⟨?_, ?_, fun now uuid => rfl, ?_, ?_⟩
  · intro now uuid
    simp [uploadHandler, hb, hu, strFalsy, hne]
  · intro bodyBytes now uuid hbody
    have hemp : bodyBytes.isEmpty = false := by
      cases bodyBytes with
      | nil => exact absurd rfl hbody
      | cons a l => rfl
    simp [uploadHandler, hb, hu, strFalsy, hne, hemp]
  · intro s h
    simp [stripTrailingSlash, h]
  · intro s h
    simp [stripTrailingSlash, h]

/-- Witness for C8 at a concrete configured environment: the empty body is
rejected and a one-byte body is stored and answered with the constructed
URL. -/
theorem claim_C8_witness :
    uploadHandler
      { bucketBound := true, publicUrl := some ("https://cdn.example.com/") }
      [] 1700 ("0123456789ab") =
      { status := 500, body := UploadBody.errMsg ("Empty upload body."),
        written := none } ∧
    uploadHandler
      { bucketBound := true, publicUrl := some ("https://cdn.example.com/") }
      [(7 : Nat)] 1700 ("0123456789ab") =
      { status := 200
      , body := UploadBody.okUrl
          (stripTrailingSlash ("https://cdn.example.com/") ++ ("/") ++
            uploadKey 1700 ("0123456789ab"))
      , written := some (PutRecord.mk (uploadKey 1700 ("0123456789ab"))
          ("image/png") ("public, max-age=31536000")) } := by
  constructor
  · exact (claim_C8
      { bucketBound := true, publicUrl := some ("https://cdn.example.com/") }
      ("https://cdn.example.com/") rfl rfl (by decide)).1 1700 ("0123456789ab")
  · exact (claim_C8
      { bucketBound := true, publicUrl := some ("https://cdn.example.com/") }
      ("https://cdn.example.com/") rfl rfl (by decide)).2.1
      [(7 : Nat)] 1700 ("0123456789ab") (by decide)

/-! ### Grid Splitter: claim C9 -/

theorem captureClearDraw (c : Canvas) (img : SrcImage) (sx sy cw ch : Nat) :
    captureCanvas (drawTile (clearRect c cw ch) img sx sy cw ch) cw ch =
      pureTile img sx sy cw ch := by
  unfold captureCanvas pureTile
  refine List.map_congr_left ?_
  intro j hj
  refine List.map_congr_left ?_
  intro i hi
  have hi2 := List.mem_range.mp hi
  have hj2 := List.mem_range.mp hj
  simp [drawTile, clearRect, hi2, hj2]

theorem splitFold (img : SrcImage) :
    ∀ (l : List (Nat × Nat)) (c : Canvas) (ts : List Tile),
      (l.foldl (splitStep img) (c, ts)).2 =
        ts ++ l.map (fun xy =>
          pureTile img (xy.1 * img.width / 3) (xy.2 * img.height / 3)
            (img.width / 3) (img.height / 3)) := by
  intro l
  induction l with
  | nil => intro c ts; simp
  | cons xy rest ih =>
    intro c ts
    have hstep : splitStep img (c, ts) xy =
        (drawTile (clearRect c (img.width / 3) (img.height / 3)) img
          (xy.1 * img.width / 3) (xy.2 * img.height / 3)
          (img.width / 3) (img.height / 3),
         ts ++ [pureTile img (xy.1 * img.width / 3) (xy.2 * img.height / 3)
          (img.width / 3) (img.height / 3)]) := by
      unfold splitStep
      dsimp only
      rw [captureClearDraw]
    simp only [List.foldl_cons, hstep, List.map_cons]
    rw [ih]
    simp

theorem split_eq_pure (img : SrcImage) (c0 : Canvas) :
    splitImageToGrid img c0 = gridPure img := by
  unfold splitImageToGrid gridPure
  rw [splitFold]
  simp

/-- C9: on every decoded source image the grid splitter returns exactly 9
tiles; every tile is (width div 3) pixels wide and (height div 3) pixels
tall, so each row of tiles covers the source width up to the division
remainder (at most 2 pixels) and each column likewise covers the height;
and the result is independent of the initial contents of the shared canvas
(the clearRect covering the whole canvas isolates every tile from the
previous draw), so re-invoking split on the same source bytes produces
identical tiles. -/
theorem claim_C9 (img : SrcImage) (c0 c0' : Canvas) :
    (splitImageToGrid img c0).length = 9 ∧
    ((splitImageToGrid img c0).all (fun t =>
      decide (t.length = img.height / 3) &&
      t.all (fun row => decide (row.length = img.width / 3)))) = true ∧
    img.width - 2 ≤ 3 * (img.width / 3) ∧ 3 * (img.width / 3) ≤ img.width ∧
    img.height - 2 ≤ 3 * (img.height / 3) ∧ 3 * (img.height / 3) ≤ img.height ∧
    splitImageToGrid img c0 = splitImageToGrid img c0' := by
  refine ⟨?_, ?_, by omega, by omega, by omega, by omega, ?_⟩
  · rw [split_eq_pure]
    simp [gridPure, tileIndices]
  · rw [split_eq_pure]
    simp only [List.all_eq_true]
    intro t ht
    simp only [gridPure, List.mem_map] at ht
    obtain ⟨xy, hxy, hteq⟩ := ht
    subst hteq
    simp [pureTile, List.all_eq_true]
  · rw [split_eq_pure img c0, split_eq_pure img c0']

end Shengtu
